import Mathlib

/-!
Shallow embedding of `jirablockers.py`: data model, relevance filter,
blocker-link collection, DOT rendering, pagination and CLI plumbing,
together with theorems settling the specification claims.
-/

set_option autoImplicit false

namespace Jirablockers

/-- Model of `issue.fields.status` : an object with a `name`. -/
structure Status where
  name : String
deriving DecidableEq

/-- Model of `issue.fields.priority` : an object with a `name`. -/
structure Priority where
  name : String
deriving DecidableEq

/-- Model of `issue.fields.severity` : an object with a `name` (the field may be absent). -/
structure Severity where
  name : String
deriving DecidableEq

/-- Model of an element of `issue.fields.components` : an object with a `name`. -/
structure Component where
  name : String
deriving DecidableEq

/-- Model of `link.outwardIssue` / `link.inwardIssue` : a stub carrying the linked key. -/
structure IssueRef where
  key : String
deriving DecidableEq

/-- Model of `link.type` : an object with a `name` (e.g. "Blocks"). -/
structure LinkType where
  name : String
deriving DecidableEq

/-- Model of one entry of `issue.fields.issuelinks`. `outwardIssue` / `inwardIssue`
are optional, mirroring the `hasattr` checks in the source. -/
structure Link where
  type : LinkType
  outwardIssue : Option IssueRef
  inwardIssue : Option IssueRef
deriving DecidableEq

/-- Model of `issue.fields`. `severity` and `components` are optional, mirroring the
`hasattr` checks in the source. -/
structure Fields where
  status : Status
  priority : Priority
  severity : Option Severity
  components : Option (List Component)
  issuelinks : List Link
deriving DecidableEq

/-- A JIRA issue: a `key` and its `fields`. -/
structure Issue where
  key : String
  fields : Fields
deriving DecidableEq

/-- Python `resolved(issue)`:
`issue.fields.status.name in ['Done', 'Resolved', 'Fertig', 'Closed']`. -/
def resolved (issue : Issue) : Bool :=
  ["Done", "Resolved", "Fertig", "Closed"].contains issue.fields.status.name

/-- Python `components(issue)`: the component names of an issue, `[]` when the
`components` field is absent. -/
def components (issue : Issue) : List String :=
  match issue.fields.components with
  | some cs => cs.map Component.name
  | none => []

/-- The test `component in components(issue)` from `relevant`: the Python
`component` is either `None` or a string, and `None` is never an element of a
list of strings. -/
def componentIn (component : Option String) (issue : Issue) : Bool :=
  match component with
  | some c => (components issue).contains c
  | none => false

/-- Python `relevant(issue, component)`: unresolved, not in `component`, and either
High/Highest priority or Major severity. -/
def relevant (issue : Issue) (component : Option String) : Bool :=
  if resolved issue then false
  else if componentIn component issue then false
  else
    (["High", "Highest"].contains issue.fields.priority.name ||
      (match issue.fields.severity with
       | some sev => ["Major"].contains sev.name
       | none => false))

/-- Python `node(issue, special)`: format a graph vertex, with
`[ shape = triangle ]` appended when `special`. -/
def node (issue : String) (special : Bool) : String :=
  let fmt := "\"" ++ issue ++ "\" "
  if special then fmt ++ "[ shape = triangle ]" else fmt

/-- Python `get_issue(key, issues)`:
`filter((lambda issue: issue.key == key), issues)[0]`, with the fatal
`IndexError` on an empty filter result modelled as `none`. -/
def get_issue (key : String) (issues : List Issue) : Option Issue :=
  (issues.filter (fun issue => issue.key == key)).head?

/-- The value stored in the `blocked` dictionary for one key:
`{'blocks': ..., 'is-blocked-by': ...}`. -/
structure BlockedInfo where
  blocks : List String
  is_blocked_by : List String
deriving DecidableEq

/-- The inward half of the `Blocks`-link handling in `get_blocked`
(lines 95-98): on `hasattr(link, 'inwardIssue')`, resolve the key and keep
it when `relevant(inward_issue, None)` - the component argument is the
literal `None`. -/
def inwardContrib (all_issues : List Issue) (link : Link) : Option (List String) :=
  match link.inwardIssue with
  | some ref => do
    let inward_issue ← get_issue ref.key all_issues
    pure (if relevant inward_issue none then [inward_issue.key] else [])
  | none => pure []

/-- The body of the link loop in `get_blocked` for one link (lines 88-98):
the keys this link contributes to `outward_issues` and `inward_issues`.
When the resolved outward issue is in `check_issues` the `continue` skips
the inward handling of the same link as well. -/
def linkContrib (check_issues all_issues : List Issue) (component : Option String)
    (link : Link) : Option (List String × List String) :=
  if link.type.name = "Blocks" then
    match link.outwardIssue with
    | some ref => do
      let outward_issue ← get_issue ref.key all_issues
      if outward_issue ∈ check_issues then
        pure ([], [])
      else do
        let inward ← inwardContrib all_issues link
        pure ((if relevant outward_issue component then [outward_issue.key] else []), inward)
    | none => do
      let inward ← inwardContrib all_issues link
      pure ([], inward)
  else
    pure ([], [])

/-- The link loop of `get_blocked` (lines 87-98): accumulate the
contributions of all links of one issue, in order. -/
def processLinks (check_issues all_issues : List Issue) (component : Option String) :
    List Link → Option (List String × List String)
  | [] => some ([], [])
  | link :: rest => do
    let head ← linkContrib check_issues all_issues component link
    let tail ← processLinks check_issues all_issues component rest
    pure (head.1 ++ tail.1, head.2 ++ tail.2)

/-- Python `blocked[issue.key] = ...`: Python dict assignment, replacing an
existing binding or appending a new one. -/
def dictInsert (m : List (String × BlockedInfo)) (k : String) (v : BlockedInfo) :
    List (String × BlockedInfo) :=
  if m.any (fun p => p.1 == k) then
    m.map (fun p => if p.1 == k then (k, v) else p)
  else
    m ++ [(k, v)]

/-- The issue loop of `get_blocked` (lines 82-101), iterating over the
remaining `check_issues` with the dictionary built so far. -/
def get_blockedGo (check_issues all_issues : List Issue) (component : Option String) :
    List Issue → List (String × BlockedInfo) → Option (List (String × BlockedInfo))
  | [], blocked => some blocked
  | issue :: rest, blocked =>
    if resolved issue then
      get_blockedGo check_issues all_issues component rest blocked
    else do
      let contrib ← processLinks check_issues all_issues component issue.fields.issuelinks
      let blocked' :=
        if contrib.1.isEmpty then blocked
        else dictInsert blocked issue.key ⟨contrib.1, contrib.2⟩
      get_blockedGo check_issues all_issues component rest blocked'

/-- Python `get_blocked(check_issues, all_issues, component)`: the blocking
dictionary, modelled as an association list; `none` models a fatal
`IndexError` from an unresolvable link key. -/
def get_blocked (check_issues all_issues : List Issue) (component : Option String) :
    Option (List (String × BlockedInfo)) :=
  get_blockedGo check_issues all_issues component check_issues []

/-- The lines printed by `output` for one entry of the dictionary
(lines 60-68): the issue's own node with the triangle shape when its
`is-blocked-by` list is empty (`special`), then for every blocked target a
default-shaped node and an edge. The commented-out `is-blocked-by` edge
loop of the source emits nothing. -/
def outputRecord (issue : String) (blocked_info : BlockedInfo) : List String :=
  (if blocked_info.is_blocked_by.isEmpty then [node issue true] else []) ++
  blocked_info.blocks.flatMap (fun out_issue =>
    [node out_issue false,
     node issue false ++ " -> " ++ node out_issue false ++ ";"])

/-- Python `output(blocked)`: the printed DOT digraph, as the list of print
calls (header, one batch per dictionary entry, closing brace). -/
def output (blocked : List (String × BlockedInfo)) : List String :=
  ["digraph blockers \x7b\n             layout=neato;\n             overlap=false;\n             sep=\"+1\";"] ++
  blocked.flatMap (fun p => outputRecord p.1 p.2) ++
  ["\x7d"]

/-- Python `JIRAWrap.MAX_ISSUES`. -/
def MAX_ISSUES : Nat := 1000

/-- The JQL query built in `component_issues` (lines 126-128). -/
def componentQuery (project : String) (component : Option String) : String :=
  match component with
  | some c => "project=" ++ project ++ " AND component=" ++ c
  | none => "project=" ++ project

/-- One pass of the `while True` body of `component_issues` (lines 130-136),
with the tracker's `issues_chunk` abstracted as `fetch query start_at
max_results`. `throw` models `break` carrying the accumulated list; the two
statements after the unconditional `break` are dead code kept in place. -/
def component_issuesBody (fetch : String → Nat → Nat → List Issue) (query : String)
    (issues : List Issue) (counter : Nat) : Except (List Issue) (List Issue × Nat) := do
  let new_issues := fetch query counter MAX_ISSUES
  let issues := issues ++ new_issues
  throw issues
  if new_issues.length < MAX_ISSUES then throw issues
  pure (issues, counter + MAX_ISSUES)

/-- The `while True` loop of `component_issues`, with fuel; `none` models
non-termination, never reached because the body always breaks. -/
def component_issuesLoop (fetch : String → Nat → Nat → List Issue) (query : String) :
    Nat → List Issue → Nat → Option (List Issue)
  | 0, _, _ => none
  | fuel + 1, issues, counter =>
    match component_issuesBody fetch query issues counter with
    | .error result => some result
    | .ok (issues', counter') => component_issuesLoop fetch query fuel issues' counter'

/-- Python `component_issues(project, component)`: retrieve all issues of the
specified component and project. -/
def component_issues (fetch : String → Nat → Nat → List Issue) (project : String)
    (component : Option String) (fuel : Nat) : Option (List Issue) :=
  component_issuesLoop fetch (componentQuery project component) fuel [] 0

/-- Python `run(jira, project, component)` (lines 141-146): fetch the project's
issues plus the hard-coded `TFAPD` project's issues as the resolution set,
fetch the component's issues to check, and render `get_blocked`. -/
def run (fetch : String → Nat → Nat → List Issue) (project : String)
    (component : Option String) (fuel : Nat) : Option (List String) := do
  let proj_issues ← component_issues fetch project none fuel
  let tfapd_issues ← component_issues fetch "TFAPD" none fuel
  let all_issues := proj_issues ++ tfapd_issues
  let issues_to_check ← component_issues fetch project component fuel
  let blocked ← get_blocked issues_to_check all_issues component
  pure (output blocked)

/-- The `__main__` block (lines 155-167): from `sys.argv` (program name
included) to the `(PROJECT, COMPONENT)` pair passed to `run`; `none` models
the `usage()` exit when arguments are missing. `COMPONENT` is the fourth
argument wrapped in literal double quotes. -/
def mainConfig (argv : List String) : Option (String × Option String) :=
  if argv.length < 4 then none
  else
    some (argv.getD 3 "",
      if argv.length = 5 then some ("\"" ++ argv.getD 4 "" ++ "\"") else none)

end Jirablockers

namespace Jirablockers

/-- C2: for every issue whose status name is one of "Done", "Resolved",
"Fertig", "Closed", `relevant issue component` is `false` for every
`component`, regardless of the issue's priority or severity. -/
theorem relevant_false_of_resolved_status (issue : Issue) (component : Option String)
    (h : issue.fields.status.name ∈ ["Done", "Resolved", "Fertig", "Closed"]) :
    relevant issue component = false := by
  have hres : resolved issue = true := List.elem_eq_true_of_mem h
  simp [relevant, hres]

/-- Witness for C2: a concrete "Closed" issue of "Highest" priority and
"Major" severity is still not relevant. -/
theorem relevant_false_of_resolved_status_witness :
    relevant ⟨"A-1", ⟨⟨"Closed"⟩, ⟨"Highest"⟩, some ⟨"Major"⟩, none, []⟩⟩ none = false :=
  relevant_false_of_resolved_status
    ⟨"A-1", ⟨⟨"Closed"⟩, ⟨"Highest"⟩, some ⟨"Major"⟩, none, []⟩⟩ none (by decide)

/-- C3: for every unresolved issue not belonging to the target component,
`relevant issue component` is `true` iff the priority name is "High" or
"Highest", or the issue has a severity field whose name equals "Major". -/
theorem relevant_iff_priority_or_severity (issue : Issue) (component : Option String)
    (hres : resolved issue = false) (hcomp : componentIn component issue = false) :
    relevant issue component = true ↔
      (issue.fields.priority.name ∈ ["High", "Highest"] ∨
        issue.fields.severity = some ⟨"Major"⟩) := by
  cases hsev : issue.fields.severity with
  | none => simp [relevant, hres, hcomp, hsev]
  | some sev =>
    cases sev with
    | mk sname => simp [relevant, hres, hcomp, hsev]

/-- Witness for C3: a concrete unresolved, componentless issue of "High"
priority is relevant, and the equivalence instantiates on it. -/
theorem relevant_iff_priority_or_severity_witness :
    relevant ⟨"A-2", ⟨⟨"Open"⟩, ⟨"High"⟩, none, none, []⟩⟩ none = true :=
  (relevant_iff_priority_or_severity
    ⟨"A-2", ⟨⟨"Open"⟩, ⟨"High"⟩, none, none, []⟩⟩ none (by decide) (by decide)).mpr
    (Or.inl (by decide))

/-- C4: for every issue and every component name present among the issue's
component memberships, `relevant issue (some c)` is `false`. -/
theorem relevant_false_of_component_member (issue : Issue) (c : String)
    (h : c ∈ components issue) :
    relevant issue (some c) = false := by
  have hc : componentIn (some c) issue = true := List.elem_eq_true_of_mem h
  by_cases hres : resolved issue
  · simp [relevant, hres]
  · simp [relevant, hres, hc]

/-- Witness for C4: a concrete unresolved "Highest"-priority issue in
component "X" is not relevant for a filter on "X". -/
theorem relevant_false_of_component_member_witness :
    relevant ⟨"A-3", ⟨⟨"Open"⟩, ⟨"Highest"⟩, none, some [⟨"X"⟩], []⟩⟩ (some "X") = false :=
  relevant_false_of_component_member
    ⟨"A-3", ⟨⟨"Open"⟩, ⟨"Highest"⟩, none, some [⟨"X"⟩], []⟩⟩ "X" (by decide)

/-- Taking `filter` then `[0]` agrees with `find?`: the first match. -/
lemma head?_filter_eq_find? (p : Issue → Bool) (l : List Issue) :
    (l.filter p).head? = l.find? p := by
  induction l with
  | nil => rfl
  | cons a l ih =>
    by_cases h : p a
    · simp [List.filter_cons, List.find?_cons, h]
    · simp only [Bool.not_eq_true] at h
      simp [List.filter_cons, List.find?_cons, h, ih]

/-- C7: `get_issue key issues` returns the first issue whose key equals
`key` when a match exists, and fails (`none`, the fatal index error) when no
issue has that key; it never silently skips an unresolved reference. -/
theorem get_issue_spec (key : String) (issues : List Issue) :
    get_issue key issues = issues.find? (fun issue => issue.key == key) ∧
    ((∀ issue ∈ issues, issue.key ≠ key) → get_issue key issues = none) ∧
    ((∃ issue ∈ issues, issue.key = key) →
      ∃ issue, get_issue key issues = some issue ∧ issue.key = key) := by
  refine ⟨head?_filter_eq_find? _ issues, fun h => ?_, fun h => ?_⟩
  · rw [get_issue, head?_filter_eq_find?, List.find?_eq_none]
    intro x hx
    simpa using h x hx
  · obtain ⟨i, hmem, hkey⟩ := h
    have hsome : (issues.find? (fun issue => issue.key == key)).isSome := by
      rw [List.find?_isSome]
      exact ⟨i, hmem, by simpa using hkey⟩
    obtain ⟨j, hj⟩ := Option.isSome_iff_exists.mp hsome
    refine ⟨j, ?_, ?_⟩
    · rw [get_issue, head?_filter_eq_find?, hj]
    · simpa using List.find?_some hj

/-- Witness for C7: on a list without the key the lookup fails, and on a
list with two matches it returns the first. -/
theorem get_issue_spec_witness :
    ((∀ issue ∈ [(⟨"B", ⟨⟨"Open"⟩, ⟨"Low"⟩, none, none, []⟩⟩ : Issue)], issue.key ≠ "A") ∧
      get_issue "A" [⟨"B", ⟨⟨"Open"⟩, ⟨"Low"⟩, none, none, []⟩⟩] = none) ∧
    ((∃ issue ∈ [(⟨"A", ⟨⟨"Open"⟩, ⟨"Low"⟩, none, none, []⟩⟩ : Issue)], issue.key = "A") ∧
      ∃ issue, get_issue "A" [⟨"A", ⟨⟨"Open"⟩, ⟨"Low"⟩, none, none, []⟩⟩] = some issue ∧
        issue.key = "A") :=
  ⟨⟨by decide, (get_issue_spec "A" [⟨"B", ⟨⟨"Open"⟩, ⟨"Low"⟩, none, none, []⟩⟩]).2.1 (by decide)⟩,
   ⟨⟨⟨"A", ⟨⟨"Open"⟩, ⟨"Low"⟩, none, none, []⟩⟩, by decide, rfl⟩,
    (get_issue_spec "A" [⟨"A", ⟨⟨"Open"⟩, ⟨"Low"⟩, none, none, []⟩⟩]).2.2
      ⟨⟨"A", ⟨⟨"Open"⟩, ⟨"Low"⟩, none, none, []⟩⟩, by decide, rfl⟩⟩⟩

/-- Insertion via `dictInsert` preserves a property of all stored values when the new
value satisfies it. -/
lemma dictInsert_forall (P : BlockedInfo → Prop) {m : List (String × BlockedInfo)}
    {k : String} {v : BlockedInfo} (hm : ∀ p ∈ m, P p.2) (hv : P v) :
    ∀ p ∈ dictInsert m k v, P p.2 := by
  intro p hp
  rw [dictInsert] at hp
  split at hp
  · obtain ⟨q, hq, hpq⟩ := List.mem_map.mp hp
    by_cases h : q.1 == k
    · simp only [h, if_true] at hpq
      exact hpq ▸ hv
    · simp only [h, Bool.false_eq_true, if_false] at hpq
      exact hpq ▸ hm q hq
  · rcases List.mem_append.mp hp with h | h
    · exact hm p h
    · simp only [List.mem_singleton] at h
      exact h ▸ hv

/-- Every entry the issue loop adds has a non-empty `blocks` list. -/
lemma get_blockedGo_blocks_ne_nil (check_issues all_issues : List Issue)
    (component : Option String) :
    ∀ (rest : List Issue) (blocked res : List (String × BlockedInfo)),
      (∀ p ∈ blocked, p.2.blocks ≠ []) →
      get_blockedGo check_issues all_issues component rest blocked = some res →
      ∀ p ∈ res, p.2.blocks ≠ [] := by
  intro rest
  induction rest with
  | nil =>
    intro blocked res hinv hgo
    simp only [get_blockedGo, Option.some_inj] at hgo
    exact hgo ▸ hinv
  | cons issue rest ih =>
    intro blocked res hinv hgo
    rw [get_blockedGo] at hgo
    split at hgo
    · exact ih blocked res hinv hgo
    · cases hcontrib : processLinks check_issues all_issues component issue.fields.issuelinks with
      | none => rw [hcontrib] at hgo; exact absurd hgo (by simp [bind, Option.bind])
      | some contrib =>
        rw [hcontrib] at hgo
        simp only [bind, Option.bind] at hgo
        split at hgo
        · exact ih blocked res hinv hgo
        · rename_i hne
          refine ih _ res (dictInsert_forall (fun b => b.blocks ≠ []) hinv ?_) hgo
          simpa using hne

/-- C1: every key present in the result of `get_blocked` maps to a record
whose `blocks` list is non-empty; no issue key with an empty `blocks` list
is ever included. -/
theorem get_blocked_blocks_ne_nil (check_issues all_issues : List Issue)
    (component : Option String) (res : List (String × BlockedInfo))
    (h : get_blocked check_issues all_issues component = some res) :
    ∀ p ∈ res, p.2.blocks ≠ [] :=
  get_blockedGo_blocks_ne_nil check_issues all_issues component check_issues [] res
    (by simp) h

/-- Witness for C1: a concrete run of `get_blocked` where issue "A" blocks
issue "B"; every record in the result has a non-empty `blocks` list. -/
theorem get_blocked_blocks_ne_nil_witness :
    get_blocked
        [⟨"A", ⟨⟨"Open"⟩, ⟨"Low"⟩, none, some [⟨"X"⟩],
          [⟨⟨"Blocks"⟩, some ⟨"B"⟩, none⟩]⟩⟩]
        [⟨"A", ⟨⟨"Open"⟩, ⟨"Low"⟩, none, some [⟨"X"⟩],
          [⟨⟨"Blocks"⟩, some ⟨"B"⟩, none⟩]⟩⟩,
         ⟨"B", ⟨⟨"Open"⟩, ⟨"High"⟩, none, some [⟨"Y"⟩], []⟩⟩]
        (some "X") =
      some [("A", ⟨["B"], []⟩)] ∧
    ∀ p ∈ [(("A", ⟨["B"], []⟩) : String × BlockedInfo)], p.2.blocks ≠ [] := by
  constructor
  · decide
  · exact get_blocked_blocks_ne_nil
      [⟨"A", ⟨⟨"Open"⟩, ⟨"Low"⟩, none, some [⟨"X"⟩],
        [⟨⟨"Blocks"⟩, some ⟨"B"⟩, none⟩]⟩⟩]
      [⟨"A", ⟨⟨"Open"⟩, ⟨"Low"⟩, none, some [⟨"X"⟩],
        [⟨⟨"Blocks"⟩, some ⟨"B"⟩, none⟩]⟩⟩,
       ⟨"B", ⟨⟨"Open"⟩, ⟨"High"⟩, none, some [⟨"Y"⟩], []⟩⟩]
      (some "X") [("A", ⟨["B"], []⟩)] (by decide)

/-- The contribution of one link to `inward_issues` does not depend on the
component argument: the source always passes `None` there. -/
lemma linkContrib_snd_indep (check all : List Issue) (c₁ c₂ : Option String) (link : Link) :
    (linkContrib check all c₁ link).map Prod.snd =
      (linkContrib check all c₂ link).map Prod.snd := by
  by_cases ht : link.type.name = "Blocks"
  · cases href : link.outwardIssue with
    | none => simp [linkContrib, ht, href]
    | some ref =>
      cases hget : get_issue ref.key all with
      | none => simp [linkContrib, ht, href, hget, bind, Option.bind]
      | some t =>
        by_cases hmem : t ∈ check
        · simp [linkContrib, ht, href, hget, hmem, bind, Option.bind]
        · cases hin : inwardContrib all link with
          | none => simp [linkContrib, ht, href, hget, hmem, hin, bind, Option.bind]
          | some i => simp [linkContrib, ht, href, hget, hmem, hin, bind, Option.bind]
  · simp [linkContrib, ht]

/-- The whole `inward_issues` list of an issue does not depend on the
component argument. -/
lemma processLinks_snd_indep (check all : List Issue) (c₁ c₂ : Option String) :
    ∀ links : List Link,
      (processLinks check all c₁ links).map Prod.snd =
        (processLinks check all c₂ links).map Prod.snd := by
  intro links
  induction links with
  | nil => rfl
  | cons link rest ih =>
    have hhead := linkContrib_snd_indep check all c₁ c₂ link
    rw [processLinks, processLinks]
    cases h1 : linkContrib check all c₁ link with
    | none =>
      cases h2 : linkContrib check all c₂ link with
      | none => simp [bind, Option.bind]
      | some b => rw [h1, h2] at hhead; simp at hhead
    | some a =>
      cases h2 : linkContrib check all c₂ link with
      | none => rw [h1, h2] at hhead; simp at hhead
      | some b =>
        rw [h1, h2] at hhead
        simp only [Option.map_some', Option.some_inj] at hhead
        cases h3 : processLinks check all c₁ rest with
        | none =>
          cases h4 : processLinks check all c₂ rest with
          | none => simp [bind, Option.bind]
          | some q => rw [h3, h4] at ih; simp at ih
        | some p =>
          cases h4 : processLinks check all c₂ rest with
          | none => rw [h3, h4] at ih; simp at ih
          | some q =>
            rw [h3, h4] at ih
            simp only [Option.map_some', Option.some_inj] at ih
            simp [bind, Option.bind, hhead, ih]

/-- C5: the inward half of the `Blocks` handling in `get_blocked` tests the
resolved target with `relevant(target, None)`: (i) the `inward_issues` list
is independent of the component argument, (ii) a relevant-for-`none` inward
target is recorded under `is-blocked-by`, and (iii) an unresolved
High/Highest target belonging to the component is relevant for `none` but
not for the component, so inward targets escape the component filter that
outward targets are subject to. -/
theorem get_blocked_inward_uses_none :
    (∀ (check all : List Issue) (c₁ c₂ : Option String) (links : List Link),
      (processLinks check all c₁ links).map Prod.snd =
        (processLinks check all c₂ links).map Prod.snd) ∧
    (∀ (check all : List Issue) (c : Option String) (link : Link) (ref : IssueRef)
        (t : Issue),
      link.type.name = "Blocks" → link.outwardIssue = none →
      link.inwardIssue = some ref → get_issue ref.key all = some t →
      relevant t none = true →
      processLinks check all c [link] = some ([], [t.key])) ∧
    (∀ (issue : Issue) (c : String),
      c ∈ components issue → resolved issue = false →
      issue.fields.priority.name ∈ ["High", "Highest"] →
      relevant issue none = true ∧ relevant issue (some c) = false) := by
  refine ⟨fun check all c₁ c₂ links => processLinks_snd_indep check all c₁ c₂ links,
    ?_, ?_⟩
  · intro check all c link ref t ht ho hi hget hrel
    simp [processLinks, linkContrib, inwardContrib, ht, ho, hi, hget, hrel,
      bind, Option.bind]
  · intro issue c hc hres hp
    have hmem : componentIn (some c) issue = true := List.elem_eq_true_of_mem hc
    have hp' : issue.fields.priority.name = "High" ∨ issue.fields.priority.name = "Highest" := by
      simpa using hp
    constructor
    · rcases hp' with h | h <;> simp [relevant, componentIn, hres, h]
    · simp [relevant, hres, hmem]

/-- Witness for C5: a concrete inward target in component "X" is recorded
under `is-blocked-by` even though the filter runs on "X". -/
theorem get_blocked_inward_uses_none_witness :
    processLinks [] [⟨"T", ⟨⟨"Open"⟩, ⟨"High"⟩, none, some [⟨"X"⟩], []⟩⟩] (some "X")
        [⟨⟨"Blocks"⟩, none, some ⟨"T"⟩⟩] = some ([], ["T"]) ∧
    (relevant ⟨"T", ⟨⟨"Open"⟩, ⟨"High"⟩, none, some [⟨"X"⟩], []⟩⟩ none = true ∧
      relevant ⟨"T", ⟨⟨"Open"⟩, ⟨"High"⟩, none, some [⟨"X"⟩], []⟩⟩ (some "X") = false) :=
  ⟨get_blocked_inward_uses_none.2.1 []
      [⟨"T", ⟨⟨"Open"⟩, ⟨"High"⟩, none, some [⟨"X"⟩], []⟩⟩] (some "X")
      ⟨⟨"Blocks"⟩, none, some ⟨"T"⟩⟩ ⟨"T"⟩
      ⟨"T", ⟨⟨"Open"⟩, ⟨"High"⟩, none, some [⟨"X"⟩], []⟩⟩
      rfl rfl rfl (by decide) (by decide),
   get_blocked_inward_uses_none.2.2
      ⟨"T", ⟨⟨"Open"⟩, ⟨"High"⟩, none, some [⟨"X"⟩], []⟩⟩ "X"
      (by decide) (by decide) (by decide)⟩

/-- C6: a record whose `is-blocked-by` list is empty has its own node
emitted with the triangle shape; every node emitted for a `blocks` target
uses `node _ false`; and the two node forms are exactly the quoted key with
and without the shape attribute. -/
theorem output_shape_marks (blocked : List (String × BlockedInfo)) :
    (∀ p ∈ blocked, p.2.is_blocked_by = [] → node p.1 true ∈ output blocked) ∧
    (∀ p ∈ blocked, ∀ t ∈ p.2.blocks, node t false ∈ output blocked) ∧
    (∀ s : String, node s true = node s false ++ "[ shape = triangle ]") ∧
    (∀ s : String, node s false = "\"" ++ s ++ "\" ") := by
  refine ⟨?_, ?_, fun s => rfl, fun s => rfl⟩
  · intro p hp hempty
    simp only [output, List.mem_append, List.mem_flatMap]
    refine Or.inl (Or.inr ⟨p, hp, ?_⟩)
    simp [outputRecord, hempty]
  · intro p hp t ht
    simp only [output, List.mem_append, List.mem_flatMap]
    refine Or.inl (Or.inr ⟨p, hp, ?_⟩)
    simp only [outputRecord, List.mem_append, List.mem_flatMap]
    exact Or.inr ⟨t, ht, by simp⟩

/-- Witness for C6: with a single record "A" blocking "B" and no inward
blockers, the output contains the triangle node for "A" and the
default-shaped node for "B". -/
theorem output_shape_marks_witness :
    node "A" true ∈ output [("A", ⟨["B"], []⟩)] ∧
    node "B" false ∈ output [("A", ⟨["B"], []⟩)] :=
  ⟨(output_shape_marks [("A", ⟨["B"], []⟩)]).1 ("A", ⟨["B"], []⟩) (by simp) rfl,
   (output_shape_marks [("A", ⟨["B"], []⟩)]).2.1 ("A", ⟨["B"], []⟩) (by simp) "B" (by simp)⟩

/-- The loop body always breaks on its first statement after accumulating
the fetched chunk, so with any fuel the loop returns after one iteration. -/
lemma component_issues_first_chunk (fetch : String → Nat → Nat → List Issue)
    (project : String) (component : Option String) (fuel : Nat) (h : 1 ≤ fuel) :
    component_issues fetch project component fuel =
      some (fetch (componentQuery project component) 0 MAX_ISSUES) := by
  cases fuel with
  | zero => exact absurd h (by simp)
  | succ n => rfl

/-- C8: `component_issues` performs exactly one fetch and unconditionally
leaves the pagination loop: the returned list is exactly the first chunk,
requested with limit `MAX_ISSUES = 1000`; later pages are never fetched. -/
theorem component_issues_single_fetch (fetch : String → Nat → Nat → List Issue)
    (project : String) (component : Option String) (fuel : Nat) (h : 1 ≤ fuel) :
    component_issues fetch project component fuel =
      some (fetch (componentQuery project component) 0 MAX_ISSUES) ∧
    MAX_ISSUES = 1000 :=
  ⟨component_issues_first_chunk fetch project component fuel h, rfl⟩

/-- Witness for C8: a fetch that would return a second page at offset 1000
still yields only the page at offset 0. -/
theorem component_issues_single_fetch_witness :
    component_issues
        (fun _ start_at _ =>
          if start_at = 0 then [⟨"A", ⟨⟨"Open"⟩, ⟨"Low"⟩, none, none, []⟩⟩]
          else [⟨"B", ⟨⟨"Open"⟩, ⟨"Low"⟩, none, none, []⟩⟩])
        "P" none 1 =
      some [⟨"A", ⟨⟨"Open"⟩, ⟨"Low"⟩, none, none, []⟩⟩] :=
  ((component_issues_single_fetch
      (fun _ start_at _ =>
        if start_at = 0 then [⟨"A", ⟨⟨"Open"⟩, ⟨"Low"⟩, none, none, []⟩⟩]
        else [⟨"B", ⟨⟨"Open"⟩, ⟨"Low"⟩, none, none, []⟩⟩])
      "P" none 1 (Nat.le_refl 1)).1).trans rfl

/-- C9: `run` resolves link targets against the concatenation of the
requested project's issues and the hard-coded `TFAPD` project's issues,
regardless of the `project` argument; a key absent from the project's
issues is looked up in the `TFAPD` part. -/
theorem run_resolves_against_project_and_tfapd
    (fetch : String → Nat → Nat → List Issue) (project : String)
    (component : Option String) (fuel : Nat) (h : 1 ≤ fuel) :
    run fetch project component fuel =
      (get_blocked (fetch (componentQuery project component) 0 MAX_ISSUES)
        (fetch (componentQuery project none) 0 MAX_ISSUES ++
          fetch (componentQuery "TFAPD" none) 0 MAX_ISSUES)
        component).map output ∧
    (∀ (key : String) (proj tfapd : List Issue),
      (∀ i ∈ proj, i.key ≠ key) →
      get_issue key (proj ++ tfapd) = get_issue key tfapd) := by
  constructor
  · have h1 := component_issues_first_chunk fetch project none fuel h
    have h2 := component_issues_first_chunk fetch "TFAPD" none fuel h
    have h3 := component_issues_first_chunk fetch project component fuel h
    rw [run, h1, h2, h3]
    cases hgb : get_blocked (fetch (componentQuery project component) 0 MAX_ISSUES)
        (fetch (componentQuery project none) 0 MAX_ISSUES ++
          fetch (componentQuery "TFAPD" none) 0 MAX_ISSUES) component with
    | none => simp [bind, Option.bind, hgb]
    | some blocked => simp [bind, Option.bind, hgb]
  · intro key proj tfapd hnone
    rw [get_issue, get_issue, List.filter_append]
    have hnil : proj.filter (fun issue => issue.key == key) = [] := by
      rw [List.filter_eq_nil_iff]
      intro i hi
      simpa using hnone i hi
    rw [hnil, List.nil_append]

/-- Witness for C9: with an empty tracker `run` renders the empty graph,
and a key missing from the project list resolves into the `TFAPD` list. -/
theorem run_resolves_against_project_and_tfapd_witness :
    run (fun _ _ _ => []) "P" none 1 = some (output []) ∧
    get_issue "B" ([⟨"A", ⟨⟨"Open"⟩, ⟨"Low"⟩, none, none, []⟩⟩] ++
        [⟨"B", ⟨⟨"Open"⟩, ⟨"Low"⟩, none, none, []⟩⟩]) =
      get_issue "B" [⟨"B", ⟨⟨"Open"⟩, ⟨"Low"⟩, none, none, []⟩⟩] :=
  ⟨((run_resolves_against_project_and_tfapd (fun _ _ _ => []) "P" none 1
      (Nat.le_refl 1)).1).trans rfl,
   (run_resolves_against_project_and_tfapd (fun _ _ _ => []) "P" none 1
      (Nat.le_refl 1)).2 "B" [⟨"A", ⟨⟨"Open"⟩, ⟨"Low"⟩, none, none, []⟩⟩]
      [⟨"B", ⟨⟨"Open"⟩, ⟨"Low"⟩, none, none, []⟩⟩] (by decide)⟩

/-- C10: with a component argument on the command line, the component
passed on is the raw argument wrapped in literal double quotes, and the
membership exclusion in `relevant` compares this quoted string against the
unquoted component names: an issue that is in component `c` but not in
component `"c"` is not excluded. -/
theorem mainConfig_quotes_component (prog user server project comp : String) :
    mainConfig [prog, user, server, project, comp] =
      some (project, some ("\"" ++ comp ++ "\"")) ∧
    (∀ (issue : Issue) (c : String),
      resolved issue = false →
      ("\"" ++ c ++ "\"") ∉ components issue →
      c ∈ components issue →
      issue.fields.priority.name = "High" →
      relevant issue (some ("\"" ++ c ++ "\"")) = true) := by
  constructor
  · simp [mainConfig]
  · intro issue c hres hq hc hp
    have hmem : componentIn (some ("\"" ++ c ++ "\"")) issue = false := by
      simp only [componentIn]
      simpa using hq
    simp [relevant, hres, hmem, hp]

/-- Witness for C10: the CLI argument "X" becomes the filter string
`"X"` (with quotes), and a High-priority issue of component "X" is still
relevant under that filter. -/
theorem mainConfig_quotes_component_witness :
    mainConfig ["./jirablockers.py", "user", "server", "PROJ", "X"] =
      some ("PROJ", some "\"X\"") ∧
    relevant ⟨"A", ⟨⟨"Open"⟩, ⟨"High"⟩, none, some [⟨"X"⟩], []⟩⟩ (some "\"X\"") = true :=
  ⟨(mainConfig_quotes_component "./jirablockers.py" "user" "server" "PROJ" "X").1,
   (mainConfig_quotes_component "./jirablockers.py" "user" "server" "PROJ" "X").2
      ⟨"A", ⟨⟨"Open"⟩, ⟨"High"⟩, none, some [⟨"X"⟩], []⟩⟩ "X"
      (by decide) (by decide) (by decide) rfl⟩

end Jirablockers
